import Mathlib

/-!
Shallow embedding of `src/source/s3_client.c` (aws-c-s3 client core):
client construction/teardown with its two-counter shutdown synchronization,
and the per-request signing → connection-acquisition → stream → finish
pipeline.  External collaborators (signer, connection manager, HTTP layer,
and the request object's own handlers from `s3_request.c`) appear only at
their call boundary: an environment record decrees each collaborator call's
result, and the notifications the pipeline delivers into the request object
are collected as an ordered event trace.
-/

set_option linter.unusedVariables false

namespace AwsCS3

/-- C constant `AWS_OP_SUCCESS` (0). -/
def AWS_OP_SUCCESS : Int := 0

/-- C constant `AWS_OP_ERR` (-1). -/
def AWS_OP_ERR : Int := -1

/-- C constant `AWS_ERROR_SUCCESS` (0). -/
def AWS_ERROR_SUCCESS : Int := 0

/-- Error identifiers passed to `aws_raise_error`; the client core raises only
the invalid-argument configuration error. -/
inductive AwsErrorId where
  | AWS_ERROR_INVALID_ARGUMENT
deriving DecidableEq, Repr

/-- Opaque handle to an `aws_client_bootstrap`. -/
abbrev Bootstrap := Nat

/-- Opaque handle to an `aws_credentials_provider`. -/
abbrev CredProvider := Nat

/-- Opaque handle to an `aws_http_connection_manager`. -/
abbrev ConnMgr := Nat

/-- Opaque handle to an `aws_signable`. -/
abbrev Signable := Nat

/-- Opaque handle to an `aws_http_connection`. -/
abbrev Connection := Nat

/-- Opaque handle to an `aws_http_stream`. -/
abbrev HttpStream := Nat

/-- Opaque handle to an `aws_http_message`. -/
abbrev Message := Nat

/-- Two to the sixty-fourth: modulus of the C `size_t` arithmetic used by the
atomic counters. -/
def U64 : Nat := 2 ^ 64

/-! ## The request pipeline (s3_client_make_request and its callbacks) -/

/-- Results of the external-collaborator calls made during one pipeline run,
one field per call site in `src/source/s3_client.c`, in call order.  For a
pointer-returning call, `none` models a NULL return; for the fallible calls
whose failure reads `aws_last_error()`, the paired `..._last_error` field is
that value. -/
structure PipelineEnv where
  /-- Return of `aws_signable_new_http_request` (`none` = NULL). -/
  signable_new : Option Signable
  /-- Return of `aws_sign_request_aws` (nonzero: signing could not start). -/
  sign_request_ret : Int
  /-- Error code the signer delivers to `s_s3_client_signing_complete`. -/
  signing_error_code : Int
  /-- Return of `aws_apply_signing_result_to_http_request` (nonzero = failure). -/
  apply_signing_ret : Int
  /-- Value of `aws_last_error()` after a failed signing-result application. -/
  apply_last_error : Int
  /-- Error code the pool delivers to `s_s3_client_on_acquire_connection`. -/
  acquire_error_code : Int
  /-- The connection the pool delivers on success. -/
  acquired_connection : Connection
  /-- Return of `aws_http_connection_make_request` (`none` = NULL). -/
  make_request_stream : Option HttpStream
  /-- Value of `aws_last_error()` after a NULL stream. -/
  make_request_last_error : Int
  /-- Return of `aws_http_stream_activate` (nonzero = failure). -/
  activate_ret : Int
  /-- Value of `aws_last_error()` after a failed activation. -/
  activate_last_error : Int
  /-- Error code the HTTP layer delivers to `s_s3_client_stream_complete`. -/
  completion_error_code : Int
deriving DecidableEq, Repr

/-- The fields of `struct aws_s3_request` the client core touches: the
outgoing message and the signable / stream slots the pipeline fills in. -/
structure S3Request where
  message : Message
  signable : Option Signable
  stream : Option HttpStream
deriving DecidableEq, Repr

/-- Notifications the pipeline delivers into the request object (the calls
into `aws_s3_request_stream_complete` / `aws_s3_request_finish`). -/
inductive REvent where
  | stream_complete (error_code : Int)
  | finish (error_code : Int)
deriving DecidableEq, Repr

/-- Number of `finish` notifications in a trace. -/
def countFinish (evs : List REvent) : Nat :=
  (evs.filter fun e => match e with | .finish _ => true | _ => false).length

/-- Number of `stream_complete` notifications in a trace. -/
def countStreamComplete (evs : List REvent) : Nat :=
  (evs.filter fun e => match e with | .stream_complete _ => true | _ => false).length

/-- Embeds `s3_client_make_request`: store the new signable on the request; a
NULL signable is an immediate `AWS_OP_ERR` return (no notification); otherwise
build the signing configuration and start `aws_sign_request_aws`, whose own
failure is again an immediate `AWS_OP_ERR` return.  Result: (return value,
updated request, whether a signing completion is now pending). -/
def s3_client_make_request (env : PipelineEnv) (request : S3Request) :
    Int × S3Request × Bool :=
  let request := { request with signable := env.signable_new }
  match env.signable_new with
  | none => (AWS_OP_ERR, request, false)
  | some _ =>
    if env.sign_request_ret ≠ 0 then (AWS_OP_ERR, request, false)
    else (AWS_OP_SUCCESS, request, true)

/-- Embeds `s_s3_client_signing_complete`: a nonzero signer error code goes to
`aws_s3_request_finish` with that code; a failed
`aws_apply_signing_result_to_http_request` goes to finish with
`aws_last_error()`; otherwise a connection acquisition is requested from the
manager.  Result: (notifications emitted, whether a connection delivery is now
pending). -/
def s_s3_client_signing_complete (env : PipelineEnv) (error_code : Int)
    (request : S3Request) : List REvent × Bool :=
  if error_code ≠ AWS_OP_SUCCESS then ([.finish error_code], false)
  else if env.apply_signing_ret ≠ 0 then ([.finish env.apply_last_error], false)
  else ([], true)

/-- Embeds `s_s3_client_on_acquire_connection`: a nonzero acquisition error
goes to finish with that code; a NULL stream from
`aws_http_connection_make_request` goes to finish with `aws_last_error()`; a
failed `aws_http_stream_activate` likewise.  On success the stream is stored
on the request and the exchange runs.  No path releases the acquired
connection: `src/source/s3_client.c` contains no call to
`aws_http_connection_manager_release_connection`, and the connection argument
is not stored on the request before `aws_s3_request_finish` is called.
Result: (updated request, notifications emitted, whether stream completion is
now pending). -/
def s_s3_client_on_acquire_connection (env : PipelineEnv) (error_code : Int)
    (request : S3Request) : S3Request × List REvent × Bool :=
  if error_code ≠ AWS_ERROR_SUCCESS then (request, [.finish error_code], false)
  else
    match env.make_request_stream with
    | none => (request, [.finish env.make_request_last_error], false)
    | some st =>
      let request := { request with stream := some st }
      if env.activate_ret ≠ AWS_OP_SUCCESS then
        (request, [.finish env.activate_last_error], false)
      else (request, [], true)

/-- Embeds `s_s3_client_stream_complete`: forward the exchange's completion
code to `aws_s3_request_stream_complete`, then call `aws_s3_request_finish`
with the same code. -/
def s_s3_client_stream_complete (error_code : Int) (request : S3Request) :
    List REvent :=
  [.stream_complete error_code, .finish error_code]

/-- Outcome of driving one request through the whole pipeline. -/
structure PipelineRun where
  /-- Return value of `s3_client_make_request`. -/
  make_request_ret : Int
  /-- Notifications delivered into the request object, in order. -/
  events : List REvent
  /-- Final state of the request record. -/
  request : S3Request
  /-- The pool delivered a live connection. -/
  connection_acquired : Bool
  /-- The connection was handed back to the manager.  The source performs no
  such release on any path (see `s_s3_client_on_acquire_connection`). -/
  connection_released : Bool
deriving DecidableEq, Repr

/-- Drives one request through the pipeline: run `s3_client_make_request`,
then fire each requested asynchronous completion exactly once with the
outcome `env` decrees — the signing completion after a successful
`aws_sign_request_aws`, the connection delivery after
`aws_http_connection_manager_acquire_connection`, and the stream completion
after a successful `aws_http_stream_activate`.  This is the collaborator
contract of the signer, pool and HTTP layer. -/
def runPipeline (env : PipelineEnv) (request : S3Request) : PipelineRun :=
  match s3_client_make_request env request with
  | (ret, req1, false) =>
    { make_request_ret := ret, events := [], request := req1,
      connection_acquired := false, connection_released := false }
  | (ret, req1, true) =>
    match s_s3_client_signing_complete env env.signing_error_code req1 with
    | (evs, false) =>
      { make_request_ret := ret, events := evs, request := req1,
        connection_acquired := false, connection_released := false }
    | (evs, true) =>
      match s_s3_client_on_acquire_connection env env.acquire_error_code req1 with
      | (req2, evs2, false) =>
        { make_request_ret := ret, events := evs ++ evs2, request := req2,
          connection_acquired := env.acquire_error_code = AWS_ERROR_SUCCESS,
          connection_released := false }
      | (req2, evs2, true) =>
        { make_request_ret := ret,
          events := evs ++ evs2 ++ s_s3_client_stream_complete env.completion_error_code req2,
          request := req2,
          connection_acquired := env.acquire_error_code = AWS_ERROR_SUCCESS,
          connection_released := false }

/-- The pipeline run reached the streaming stage: the stream was created and
activated, so the exchange ran to its completion callback. -/
def streamActivated (env : PipelineEnv) (request : S3Request) : Bool :=
  match s3_client_make_request env request with
  | (_, _, false) => false
  | (_, req1, true) =>
    match s_s3_client_signing_complete env env.signing_error_code req1 with
    | (_, false) => false
    | (_, true) => (s_s3_client_on_acquire_connection env env.acquire_error_code req1).2.2

/-! ## Client construction and lifecycle -/

/-- The fields of `struct aws_s3_client_config` the constructor reads. -/
structure ClientConfig where
  client_bootstrap : Option Bootstrap
  credentials_provider : Option CredProvider
  region : String
  endpoint : String
  /-- Nullable user callback pointer. -/
  shutdown_callback : Option Nat
  shutdown_callback_user_data : Nat
deriving DecidableEq, Repr

/-- The fields of `struct aws_s3_client`.  Pointer fields the code nulls out
are `Option`s. -/
structure S3Client where
  ref_count : Nat
  shutdown_wait_count : Nat
  client_bootstrap : Bootstrap
  credentials_provider : Option CredProvider
  shutdown_callback : Option Nat
  shutdown_callback_user_data : Nat
  region : Option String
  endpoint : Option String
  connection_manager : Option ConnMgr
deriving DecidableEq, Repr

/-- Results of the fallible external calls made by `aws_s3_client_new`, in
call order. -/
structure AllocEnv where
  /-- `aws_mem_calloc` of the client struct succeeds. -/
  calloc_ok : Bool
  /-- `aws_string_new_from_array` for the region succeeds. -/
  region_new_ok : Bool
  /-- `aws_string_new_from_array` for the endpoint succeeds. -/
  endpoint_new_ok : Bool
  /-- Return of `aws_http_connection_manager_new` (`none` = NULL). -/
  cm_new : Option ConnMgr
deriving DecidableEq, Repr

/-- Resource operations performed by one `aws_s3_client_release` call. -/
structure ReleaseEffects where
  /-- `aws_credentials_provider_release` was called. -/
  provider_released : Bool
  /-- `aws_http_connection_manager_release` was called. -/
  cm_released : Bool
  /-- `aws_string_destroy` of the region string was called. -/
  region_destroyed : Bool
  /-- `aws_string_destroy` of the endpoint string was called. -/
  endpoint_destroyed : Bool
deriving DecidableEq, Repr

/-- Embeds `aws_s3_client_acquire`: atomic fetch-add on the reference count
(`size_t` arithmetic, hence mod 2^64). -/
def aws_s3_client_acquire (client : S3Client) : S3Client :=
  { client with ref_count := (client.ref_count + 1) % U64 }

/-- Embeds `aws_s3_client_release`: atomic fetch-sub on the reference count
(`size_t` arithmetic, hence mod 2^64); if the new count is positive nothing
else happens; on the decrement that reaches zero it releases the credentials
provider, the connection manager and the two owned strings, nulling each
field that was non-NULL.  It never frees the client struct itself: the only
`aws_mem_release` of the client is in `s_s3_client_dec_shutdown_wait_count`. -/
def aws_s3_client_release (client : S3Client) : S3Client × ReleaseEffects :=
  let new_ref_count := (client.ref_count + (U64 - 1)) % U64
  if new_ref_count > 0 then
    ({ client with ref_count := new_ref_count },
     { provider_released := false, cm_released := false,
       region_destroyed := false, endpoint_destroyed := false })
  else
    ({ client with
       ref_count := new_ref_count,
       credentials_provider := none, connection_manager := none,
       region := none, endpoint := none },
     { provider_released := client.credentials_provider.isSome,
       cm_released := client.connection_manager.isSome,
       region_destroyed := client.region.isSome,
       endpoint_destroyed := client.endpoint.isSome })

/-- Ordered actions of `s_s3_client_dec_shutdown_wait_count` once the count
reaches zero. -/
inductive ShutdownAction where
  /-- `aws_mem_release(client->allocator, client)` — the client struct's
  backing memory is freed. -/
  | free_client
  /-- `shutdown_callback(shutdown_user_data)` — the saved (possibly NULL)
  callback pointer is invoked, with no null check, on the saved user data. -/
  | invoke_callback (callback : Option Nat) (user_data : Nat)
deriving DecidableEq, Repr

/-- Embeds `s_s3_client_dec_shutdown_wait_count`: atomic fetch-sub on the
shutdown-wait count (`size_t` arithmetic, hence mod 2^64); if the new count is
positive nothing else happens.  At zero it reads the callback pointer and its
user data out of the client into locals, frees the client struct, and then
invokes the saved pointer on the saved user data — unconditionally, with no
null check.  Result: the surviving client (`none` = freed) and the ordered
action list. -/
def s_s3_client_dec_shutdown_wait_count (client : S3Client) :
    Option S3Client × List ShutdownAction :=
  let new_count := (client.shutdown_wait_count + (U64 - 1)) % U64
  if new_count > 0 then
    (some { client with shutdown_wait_count := new_count }, [])
  else
    let shutdown_callback := client.shutdown_callback
    let shutdown_user_data := client.shutdown_callback_user_data
    (none, [ShutdownAction.free_client,
            ShutdownAction.invoke_callback shutdown_callback shutdown_user_data])

/-- Resource operations observable after one `aws_s3_client_new` call. -/
structure NewEffects where
  /-- Error id passed to `aws_raise_error`, if any. -/
  raised_error : Option AwsErrorId
  /-- The client struct was allocated (`aws_mem_calloc` ran and succeeded). -/
  client_allocated : Bool
  /-- The client struct's backing memory was freed again
  (`aws_mem_release(allocator, client)` ran).  That call exists only in
  `s_s3_client_dec_shutdown_wait_count`, which only the connection-manager
  shutdown callback reaches; on every construction-error path the connection
  manager is NULL, so it is never reached. -/
  client_freed : Bool
  /-- `aws_credentials_provider_acquire` was called. -/
  provider_acquired : Bool
  provider_released : Bool
  region_destroyed : Bool
  endpoint_destroyed : Bool
  /-- `aws_http_connection_manager_new` succeeded. -/
  cm_created : Bool
  cm_released : Bool
deriving DecidableEq, Repr

/-- Embeds the `error_clean_up` label of `aws_s3_client_new`: call
`aws_s3_client_release` on the partly built client (its reference count is 1,
so this is the decrement to zero) and return NULL.  The client struct itself
is not freed here nor later: the wait count is 0 and no connection manager
exists to fire the shutdown callback. -/
def s_construction_error_clean_up (client : S3Client) :
    Option S3Client × NewEffects :=
  let rel := (aws_s3_client_release client).2
  (none,
   { raised_error := none, client_allocated := true, client_freed := false,
     provider_acquired := true, provider_released := rel.provider_released,
     region_destroyed := rel.region_destroyed,
     endpoint_destroyed := rel.endpoint_destroyed,
     cm_created := client.connection_manager.isSome,
     cm_released := rel.cm_released })

/-- Embeds `aws_s3_client_new`, mirroring the C control flow: validate the
bootstrap and the credentials provider (NULL → raise invalid-argument, return
NULL before anything is acquired); calloc the struct; take a reference on the
provider; copy the region and endpoint strings; build the connection manager
with the client registered as its shutdown observer; bump the shutdown-wait
count by one for it.  Any failure past the calloc jumps to
`error_clean_up`. -/
def aws_s3_client_new (env : AllocEnv) (config : ClientConfig) :
    Option S3Client × NewEffects :=
  match config.client_bootstrap with
  | none =>
    (none,
     { raised_error := some .AWS_ERROR_INVALID_ARGUMENT,
       client_allocated := false, client_freed := false,
       provider_acquired := false, provider_released := false,
       region_destroyed := false, endpoint_destroyed := false,
       cm_created := false, cm_released := false })
  | some bootstrap =>
    match config.credentials_provider with
    | none =>
      (none,
       { raised_error := some .AWS_ERROR_INVALID_ARGUMENT,
         client_allocated := false, client_freed := false,
         provider_acquired := false, provider_released := false,
         region_destroyed := false, endpoint_destroyed := false,
         cm_created := false, cm_released := false })
    | some provider =>
      if env.calloc_ok = false then
        (none,
         { raised_error := none,
           client_allocated := false, client_freed := false,
           provider_acquired := false, provider_released := false,
           region_destroyed := false, endpoint_destroyed := false,
           cm_created := false, cm_released := false })
      else
        let client0 : S3Client :=
          { ref_count := 1, shutdown_wait_count := 0,
            client_bootstrap := bootstrap,
            credentials_provider := some provider,
            shutdown_callback := config.shutdown_callback,
            shutdown_callback_user_data := config.shutdown_callback_user_data,
            region := none, endpoint := none, connection_manager := none }
        if env.region_new_ok = false then s_construction_error_clean_up client0
        else
          let client1 := { client0 with region := some config.region }
          if env.endpoint_new_ok = false then s_construction_error_clean_up client1
          else
            let client2 := { client1 with endpoint := some config.endpoint }
            match env.cm_new with
            | none => s_construction_error_clean_up client2
            | some cm =>
              let client3 :=
                { client2 with
                  connection_manager := some cm,
                  shutdown_wait_count := (client2.shutdown_wait_count + 1) % U64 }
              (some client3,
               { raised_error := none, client_allocated := true,
                 client_freed := false,
                 provider_acquired := true, provider_released := false,
                 region_destroyed := false, endpoint_destroyed := false,
                 cm_created := true, cm_released := false })

/-! ## Client lifecycle traces

Events a live client can receive after a successful construction: reference
acquire/release calls from its callers, and the connection manager's shutdown
completion callback.  The step relation encodes the collaborator contract:
callers release only handles they hold, and the manager fires its shutdown
callback at most once, and only after `aws_http_connection_manager_release`
was called on it. -/

/-- Number of `free_client` actions in a shutdown action list. -/
def countFree (acts : List ShutdownAction) : Nat :=
  (acts.filter fun a => match a with | .free_client => true | _ => false).length

/-- Number of callback invocations in a shutdown action list. -/
def countInvoke (acts : List ShutdownAction) : Nat :=
  (acts.filter fun a => match a with | .invoke_callback _ _ => true | _ => false).length

/-- Operations the outside world performs on a constructed client. -/
inductive LifecycleOp where
  | acquire
  | release
  | cm_shutdown_complete
deriving DecidableEq, Repr

/-- Observable lifecycle state of one client and its connection-manager
subsystem.  `client = none` means the struct's backing memory has been
freed. -/
structure World where
  client : Option S3Client
  /-- `aws_http_connection_manager_release` has been called. -/
  cm_release_initiated : Bool
  /-- The manager's shutdown-complete callback has already fired. -/
  cm_shutdown_delivered : Bool
  /-- Times `aws_mem_release(client->allocator, client)` has run. -/
  free_count : Nat
  /-- Times the user shutdown callback has run. -/
  callback_count : Nat
  /-- The reference-count decrement has reached zero at some point. -/
  ref_hit_zero : Bool
  /-- The shutdown-wait-count decrement has reached zero at some point. -/
  wait_hit_zero : Bool
deriving DecidableEq, Repr

/-- State of the world right after a successful `aws_s3_client_new`. -/
def initWorld (client : S3Client) : World :=
  { client := some client, cm_release_initiated := false,
    cm_shutdown_delivered := false, free_count := 0, callback_count := 0,
    ref_hit_zero := false, wait_hit_zero := false }

/-- One lifecycle step; `none` marks an operation the environment contract
rules out (acting on a freed client, releasing a handle nobody holds, or a
manager callback that was never armed or has already fired). -/
def lifecycleStep (w : World) (op : LifecycleOp) : Option World :=
  match op with
  | .acquire =>
    match w.client with
    | none => none
    | some c => some { w with client := some (aws_s3_client_acquire c) }
  | .release =>
    match w.client with
    | none => none
    | some c =>
      if c.ref_count = 0 then none
      else
        let res := aws_s3_client_release c
        some { w with
               client := some res.1,
               cm_release_initiated := w.cm_release_initiated || res.2.cm_released,
               ref_hit_zero := w.ref_hit_zero || decide (res.1.ref_count = 0) }
  | .cm_shutdown_complete =>
    if w.cm_release_initiated = false then none
    else if w.cm_shutdown_delivered = true then none
    else
      match w.client with
      | none => none
      | some c =>
        let res := s_s3_client_dec_shutdown_wait_count c
        some { w with
               client := res.1,
               cm_shutdown_delivered := true,
               free_count := w.free_count + countFree res.2,
               callback_count := w.callback_count + countInvoke res.2,
               wait_hit_zero := w.wait_hit_zero || res.1.isNone }

/-- Runs a list of lifecycle operations from a starting world. -/
def lifecycleRun (w : World) : List LifecycleOp → Option World
  | [] => some w
  | op :: ops =>
    match lifecycleStep w op with
    | none => none
    | some w' => lifecycleRun w' ops

/-! ## Response-event forwarding hooks -/

/-- An `aws_http_header_block` value. -/
abbrev HeaderBlock := Nat

/-- An `aws_http_header` (name, value). -/
structure HttpHeader where
  name : String
  value : String
deriving DecidableEq, Repr

/-- A borrowed `aws_byte_cursor` over a body chunk. -/
abbrev ByteCursor := List Nat

/-- The request object's opaque response handlers (`aws_s3_request_*` in
`s3_request.c`, outside this core): each returns a continue/stop status. -/
structure S3RequestHandlers where
  incoming_headers : HeaderBlock → List HttpHeader → Nat → Int
  incoming_header_block_done : HeaderBlock → Int
  incoming_body : ByteCursor → Int

/-- Embeds `s_s3_client_incoming_headers`: ignore the stream, cast user_data
back to the request, forward block, headers and count unmodified, and return
whatever `aws_s3_request_incoming_headers` returns. -/
def s_s3_client_incoming_headers (stream : HttpStream) (header_block : HeaderBlock)
    (headers : List HttpHeader) (num_headers : Nat)
    (request : S3RequestHandlers) : Int :=
  request.incoming_headers header_block headers num_headers

/-- Embeds `s_s3_client_incoming_header_block_done`: ignore the stream and
forward to `aws_s3_request_incoming_header_block_done`. -/
def s_s3_client_incoming_header_block_done (stream : HttpStream)
    (header_block : HeaderBlock) (request : S3RequestHandlers) : Int :=
  request.incoming_header_block_done header_block

/-- Embeds `s_s3_client_incoming_body`: ignore the stream and forward the
body cursor to `aws_s3_request_incoming_body`. -/
def s_s3_client_incoming_body (stream : HttpStream) (data : ByteCursor)
    (request : S3RequestHandlers) : Int :=
  request.incoming_body data

/-! ## Shared concrete fixtures -/

/-- A pipeline environment in which every collaborator call succeeds. -/
def envAllOk : PipelineEnv :=
  { signable_new := some 1, sign_request_ret := 0, signing_error_code := 0,
    apply_signing_ret := 0, apply_last_error := 0, acquire_error_code := 0,
    acquired_connection := 5, make_request_stream := some 7,
    make_request_last_error := 0, activate_ret := 0, activate_last_error := 0,
    completion_error_code := 0 }

/-- The all-success environment except that `aws_signable_new_http_request`
returns NULL. -/
def envSignableFail : PipelineEnv := { envAllOk with signable_new := none }

/-- The all-success environment except that the exchange completes with
error code 42. -/
def envCompleteErr : PipelineEnv := { envAllOk with completion_error_code := 42 }

/-- The all-success environment except that the signer's completion callback
reports error code 7. -/
def envSigningFail : PipelineEnv := { envAllOk with signing_error_code := 7 }

/-- The all-success environment except that
`aws_http_connection_make_request` returns NULL with `aws_last_error()` =
1034. -/
def envStreamCreateFail : PipelineEnv :=
  { envAllOk with make_request_stream := none, make_request_last_error := 1034 }

/-- A freshly prepared request (message populated, nothing else). -/
def sampleRequest : S3Request := { message := 3, signable := none, stream := none }

/-- A construction environment in which every allocation succeeds. -/
def sampleAllocEnv : AllocEnv :=
  { calloc_ok := true, region_new_ok := true, endpoint_new_ok := true,
    cm_new := some 3 }

/-- A construction environment in which the region-string copy fails. -/
def regionFailAllocEnv : AllocEnv :=
  { calloc_ok := true, region_new_ok := false, endpoint_new_ok := true,
    cm_new := some 3 }

/-- A valid client configuration (bootstrap and provider present). -/
def sampleConfig : ClientConfig :=
  { client_bootstrap := some 1, credentials_provider := some 2,
    region := "r", endpoint := "e", shutdown_callback := some 9,
    shutdown_callback_user_data := 4 }

/-- The valid configuration with its credentials provider removed. -/
def noProviderConfig : ClientConfig :=
  { sampleConfig with credentials_provider := none }

/-- The client `aws_s3_client_new sampleAllocEnv sampleConfig` builds. -/
def sampleClient : S3Client :=
  { ref_count := 1, shutdown_wait_count := 1, client_bootstrap := 1,
    credentials_provider := some 2, shutdown_callback := some 9,
    shutdown_callback_user_data := 4, region := some "r", endpoint := some "e",
    connection_manager := some 3 }

/-- A client at the release point with a NULL user shutdown callback. -/
def nullCallbackClient : S3Client :=
  { ref_count := 0, shutdown_wait_count := 1, client_bootstrap := 1,
    credentials_provider := none, shutdown_callback := none,
    shutdown_callback_user_data := 4, region := none, endpoint := none,
    connection_manager := none }

/-- The world after `sampleClient` is released and the manager's shutdown
callback then fires. -/
def sampleFinalWorld : World :=
  { client := none, cm_release_initiated := true, cm_shutdown_delivered := true,
    free_count := 1, callback_count := 1, ref_hit_zero := true,
    wait_hit_zero := true }

/-! ## Helper lemmas on the pipeline stages -/

theorem countFinish_append (a b : List REvent) :
    countFinish (a ++ b) = countFinish a + countFinish b := by
  simp [countFinish]

theorem countStreamComplete_append (a b : List REvent) :
    countStreamComplete (a ++ b) = countStreamComplete a + countStreamComplete b := by
  simp [countStreamComplete]

/-- The start stage returns success exactly when it leaves a signing
completion pending. -/
theorem make_request_spec (env : PipelineEnv) (request : S3Request) :
    (s3_client_make_request env request).1 =
      (if (s3_client_make_request env request).2.2 then AWS_OP_SUCCESS else AWS_OP_ERR) := by
  unfold s3_client_make_request
  cases h : env.signable_new
  · simp [h]
  · by_cases hs : env.sign_request_ret ≠ 0 <;> simp [h, hs]

/-- The signing-completion stage either finishes with one error code or
proceeds to connection acquisition with no notification. -/
theorem signing_complete_spec (env : PipelineEnv) (e : Int) (request : S3Request) :
    (∃ ec, s_s3_client_signing_complete env e request = ([REvent.finish ec], false))
    ∨ s_s3_client_signing_complete env e request = ([], true) := by
  unfold s_s3_client_signing_complete
  split
  · exact Or.inl ⟨e, rfl⟩
  · split
    · exact Or.inl ⟨env.apply_last_error, rfl⟩
    · exact Or.inr rfl

/-- A failed signing stage (signer error or result application error) always
finishes with one error code and never proceeds. -/
theorem signing_complete_fail (env : PipelineEnv) (e : Int) (request : S3Request)
    (h : e ≠ AWS_OP_SUCCESS ∨ env.apply_signing_ret ≠ 0) :
    ∃ ec, s_s3_client_signing_complete env e request = ([REvent.finish ec], false) := by
  unfold s_s3_client_signing_complete
  by_cases h1 : e ≠ AWS_OP_SUCCESS
  · exact ⟨e, by simp [h1]⟩
  · rcases h with h | h2
    · exact absurd h h1
    · exact ⟨env.apply_last_error, by simp [h1, h2]⟩

/-- The connection stage either finishes with one error code or stores the
activated stream and proceeds with no notification. -/
theorem on_acquire_spec (env : PipelineEnv) (e : Int) (request : S3Request) :
    (∃ ec req', s_s3_client_on_acquire_connection env e request
        = (req', [REvent.finish ec], false))
    ∨ (∃ req', s_s3_client_on_acquire_connection env e request = (req', [], true)) := by
  unfold s_s3_client_on_acquire_connection
  split
  · exact Or.inl ⟨e, request, rfl⟩
  · cases h : env.make_request_stream with
    | none => exact Or.inl ⟨env.make_request_last_error, request, by simp [h]⟩
    | some st =>
      by_cases ha : env.activate_ret ≠ AWS_OP_SUCCESS
      · exact Or.inl ⟨env.activate_last_error, { request with stream := some st },
          by simp [h, ha]⟩
      · exact Or.inr ⟨{ request with stream := some st }, by simp [h, ha]⟩

/-! ## Helper lemmas on the lifecycle -/

/-- Case analysis of `aws_s3_client_release`: either the decremented count is
still positive and only the count changes, or it reached zero and the owned
resources are dropped — the struct itself surviving in both cases. -/
theorem aws_s3_client_release_cases (c : S3Client) :
    (0 < (c.ref_count + (U64 - 1)) % U64 ∧
      aws_s3_client_release c =
        ({ c with ref_count := (c.ref_count + (U64 - 1)) % U64 },
         { provider_released := false, cm_released := false,
           region_destroyed := false, endpoint_destroyed := false }))
    ∨ ((c.ref_count + (U64 - 1)) % U64 = 0 ∧
      aws_s3_client_release c =
        ({ c with
           ref_count := 0,
           credentials_provider := none, connection_manager := none,
           region := none, endpoint := none },
         { provider_released := c.credentials_provider.isSome,
           cm_released := c.connection_manager.isSome,
           region_destroyed := c.region.isSome,
           endpoint_destroyed := c.endpoint.isSome })) := by
  unfold aws_s3_client_release
  by_cases h : (c.ref_count + (U64 - 1)) % U64 > 0
  · exact Or.inl ⟨h, by simp [h]⟩
  · have h0 : (c.ref_count + (U64 - 1)) % U64 = 0 := by omega
    exact Or.inr ⟨h0, by simp [h, h0]⟩

/-- Case analysis of `s_s3_client_dec_shutdown_wait_count`: either the
decremented count is still positive and nothing else happens, or it reached
zero and the client is freed and the saved callback invoked, in that order. -/
theorem dec_shutdown_wait_cases (c : S3Client) :
    (0 < (c.shutdown_wait_count + (U64 - 1)) % U64 ∧
      s_s3_client_dec_shutdown_wait_count c =
        (some { c with shutdown_wait_count := (c.shutdown_wait_count + (U64 - 1)) % U64 }, []))
    ∨ ((c.shutdown_wait_count + (U64 - 1)) % U64 = 0 ∧
      s_s3_client_dec_shutdown_wait_count c =
        (none, [ShutdownAction.free_client,
                ShutdownAction.invoke_callback c.shutdown_callback
                  c.shutdown_callback_user_data])) := by
  unfold s_s3_client_dec_shutdown_wait_count
  by_cases h : (c.shutdown_wait_count + (U64 - 1)) % U64 > 0
  · exact Or.inl ⟨h, by simp [h]⟩
  · have h0 : (c.shutdown_wait_count + (U64 - 1)) % U64 = 0 := by omega
    exact Or.inr ⟨h0, by simp [h]⟩

/-- Inductive invariant of the lifecycle trace semantics: the client struct
is freed at most once, never before the manager's shutdown callback has
fired, the manager release is only initiated by the reference count reaching
zero, and a freed struct means both counters had reached zero. -/
def LifecycleInv (w : World) : Prop :=
  w.free_count ≤ 1
  ∧ (w.cm_shutdown_delivered = false → w.free_count = 0)
  ∧ (w.cm_release_initiated = true → w.ref_hit_zero = true)
  ∧ (1 ≤ w.free_count → w.ref_hit_zero = true ∧ w.wait_hit_zero = true)

/-- Every lifecycle step preserves `LifecycleInv`. -/
theorem lifecycleStep_inv {w w' : World} {op : LifecycleOp}
    (hw : LifecycleInv w) (h : lifecycleStep w op = some w') : LifecycleInv w' := by
  obtain ⟨h1, h2, h3, h4⟩ := hw
  cases op with
  | acquire =>
    cases hc : w.client with
    | none => simp [lifecycleStep, hc] at h
    | some c =>
      simp only [lifecycleStep, hc] at h
      cases h
      exact ⟨h1, h2, h3, h4⟩
  | release =>
    cases hc : w.client with
    | none => simp [lifecycleStep, hc] at h
    | some c =>
      simp only [lifecycleStep, hc] at h
      by_cases hr : c.ref_count = 0
      · simp [hr] at h
      · simp only [hr, if_false] at h
        cases h
        refine ⟨h1, h2, ?_, fun hf => ⟨(?_ : _ ∨ _).elim id id, (h4 hf).2⟩⟩
        · intro hcm
          rcases Bool.or_eq_true_iff.mp hcm with hcm | hcm
          · simp [h3 hcm]
          · rcases aws_s3_client_release_cases c with ⟨_, heq⟩ | ⟨_, heq⟩
            · rw [heq] at hcm; simp at hcm
            · rw [heq]
              simp
        · exact Or.inl ((h4 hf).1 ▸ by simp [(h4 hf).1])
  | cm_shutdown_complete =>
    by_cases hi : w.cm_release_initiated = false
    · simp [lifecycleStep, hi] at h
    · by_cases hd : w.cm_shutdown_delivered = true
      · simp [lifecycleStep, hi, hd] at h
      · cases hc : w.client with
        | none => simp [lifecycleStep, hi, hd, hc] at h
        | some c =>
          simp only [lifecycleStep, hi, hd, hc, Bool.false_eq_true, if_false] at h
          have hz : w.ref_hit_zero = true := h3 (by revert hi; cases w.cm_release_initiated <;> simp)
          have hf0 : w.free_count = 0 := h2 (by revert hd; cases w.cm_shutdown_delivered <;> simp)
          rcases dec_shutdown_wait_cases c with ⟨_, heq⟩ | ⟨_, heq⟩
          · rw [heq] at h
            cases h
            refine ⟨by simp [countFree, hf0], by simp, fun _ => by simp [hz], ?_⟩
            intro hcontra
            simp [countFree, hf0] at hcontra
          · rw [heq] at h
            cases h
            refine ⟨by simp [countFree, hf0], by simp, fun _ => by simp [hz], ?_⟩
            intro _
            simp [hz]

/-- `LifecycleInv` holds after any valid run of lifecycle operations. -/
theorem lifecycleRun_inv : ∀ (ops : List LifecycleOp) (w w' : World),
    LifecycleInv w → lifecycleRun w ops = some w' → LifecycleInv w' := by
  intro ops
  induction ops with
  | nil =>
    intro w w' hw h
    simp only [lifecycleRun] at h
    cases h
    exact hw
  | cons op ops ih =>
    intro w w' hw h
    simp only [lifecycleRun] at h
    cases hs : lifecycleStep w op with
    | none => rw [hs] at h; cases h
    | some w1 => rw [hs] at h; exact ih w1 w' (lifecycleStep_inv hw hs) h

/-! ## Claim theorems -/

/-- C1 counterexample: when `aws_signable_new_http_request` returns NULL,
`s3_client_make_request` returns `AWS_OP_ERR` synchronously and the request's
`finish` notification is never called — not once with an error, zero times —
refuting that every failing pipeline run, in particular a
signable-construction failure at Start, leads to exactly one `finish`. -/
theorem C1_counterexample_signable_failure_no_finish :
    (runPipeline envSignableFail sampleRequest).make_request_ret = AWS_OP_ERR
    ∧ countFinish (runPipeline envSignableFail sampleRequest).events = 0 :=
  ⟨rfl, rfl⟩

/-- C1 amended: the number of `finish` notifications a pipeline run delivers
is exactly one when `s3_client_make_request` returned `AWS_OP_SUCCESS`
(whichever later stage fails), and exactly zero when it returned an error —
synchronous Start failures (signable construction, starting the signer) are
reported by the error return instead of by `finish`. -/
theorem C1_amended_finish_exactly_once_when_started
    (env : PipelineEnv) (request : S3Request) :
    countFinish (runPipeline env request).events =
      if (runPipeline env request).make_request_ret = AWS_OP_SUCCESS then 1 else 0 := by
  have hm := make_request_spec env request
  rcases hE : s3_client_make_request env request with ⟨ret, req1, pending⟩
  rw [hE] at hm
  cases pending with
  | false =>
    simp only [if_false] at hm
    simp only [runPipeline, hE]
    simp [countFinish, hm, AWS_OP_ERR, AWS_OP_SUCCESS]
  | true =>
    simp only [if_true] at hm
    rcases signing_complete_spec env env.signing_error_code req1 with ⟨ec, hs⟩ | hs
    · simp only [runPipeline, hE, hs]
      simp [countFinish, hm, AWS_OP_SUCCESS]
    · rcases on_acquire_spec env env.acquire_error_code req1 with
        ⟨ec, req', ha⟩ | ⟨req', ha⟩
      · simp only [runPipeline, hE, hs, ha]
        simp [countFinish, countFinish_append, hm, AWS_OP_SUCCESS]
      · simp only [runPipeline, hE, hs, ha]
        simp [countFinish, countFinish_append, s_s3_client_stream_complete, hm,
          AWS_OP_SUCCESS]

/-- C2: for every client a successful construction returns, along every valid
trace of acquire/release calls and manager shutdown callbacks, the client's
backing memory is freed at most once, and a free implies that the
reference-count decrement and the shutdown-wait-count decrement have each
reached zero — neither counter alone releases the memory. -/
theorem C2_free_gated_by_both_counters_and_at_most_once
    (env : AllocEnv) (config : ClientConfig) (c : S3Client)
    (ops : List LifecycleOp) (w' : World)
    (hc : (aws_s3_client_new env config).1 = some c)
    (hrun : lifecycleRun (initWorld c) ops = some w') :
    w'.free_count ≤ 1
    ∧ (1 ≤ w'.free_count → w'.ref_hit_zero = true ∧ w'.wait_hit_zero = true) := by
  have hinv : LifecycleInv (initWorld c) := by
    refine ⟨by simp [initWorld], fun _ => rfl, fun hx => ?_, fun hx => ?_⟩
    · simp [initWorld] at hx
    · simp [initWorld] at hx
  have hres := lifecycleRun_inv ops (initWorld c) w' hinv hrun
  exact ⟨hres.1, hres.2.2.2⟩

/-- C2 witness: the sample client is built by a successful construction; one
release followed by the manager's shutdown callback reaches the final world,
where the conclusion of the gating theorem holds concretely. -/
theorem C2_witness :
    (aws_s3_client_new sampleAllocEnv sampleConfig).1 = some sampleClient
    ∧ lifecycleRun (initWorld sampleClient)
        [LifecycleOp.release, LifecycleOp.cm_shutdown_complete] = some sampleFinalWorld
    ∧ sampleFinalWorld.free_count ≤ 1
    ∧ (1 ≤ sampleFinalWorld.free_count →
        sampleFinalWorld.ref_hit_zero = true ∧ sampleFinalWorld.wait_hit_zero = true) :=
  ⟨by decide, by decide,
   (C2_free_gated_by_both_counters_and_at_most_once sampleAllocEnv sampleConfig
      sampleClient [LifecycleOp.release, LifecycleOp.cm_shutdown_complete]
      sampleFinalWorld (by decide) (by decide)).1,
   (C2_free_gated_by_both_counters_and_at_most_once sampleAllocEnv sampleConfig
      sampleClient [LifecycleOp.release, LifecycleOp.cm_shutdown_complete]
      sampleFinalWorld (by decide) (by decide)).2⟩

/-- C3 evaluated at the failing input: with a valid configuration and a
failed region-string allocation, construction returns no client and releases
the already-acquired credentials-provider reference, but the client struct's
own backing memory — allocated by the calloc — is never freed:
`aws_mem_release(client->allocator, client)` exists only inside
`s_s3_client_dec_shutdown_wait_count`, reachable only from the
connection-manager shutdown callback, and no connection manager exists on any
construction-failure path.  The claim's "including the client's own
allocation — is released (no leak)" fails on the code. -/
theorem C3_construction_failure_leaks_client_struct :
    (aws_s3_client_new regionFailAllocEnv sampleConfig).1 = none
    ∧ (aws_s3_client_new regionFailAllocEnv sampleConfig).2.client_allocated = true
    ∧ (aws_s3_client_new regionFailAllocEnv sampleConfig).2.client_freed = false
    ∧ (aws_s3_client_new regionFailAllocEnv sampleConfig).2.provider_acquired = true
    ∧ (aws_s3_client_new regionFailAllocEnv sampleConfig).2.provider_released = true :=
  ⟨rfl, rfl, rfl, rfl, rfl⟩

/-- C4 evaluated at the failing input: signing succeeds, the pool delivers a
live connection, and `aws_http_connection_make_request` then returns NULL —
the run calls `finish` with the stream-creation error while the acquired
connection is never handed back: the source contains no call to
`aws_http_connection_manager_release_connection`, and the connection argument
is not stored on the request, so nothing reachable from the Finish call can
release it.  The claim's "the connection … released before or during the
Finish call" fails on the code. -/
theorem C4_stream_creation_failure_leaks_connection :
    (runPipeline envStreamCreateFail sampleRequest).connection_acquired = true
    ∧ (runPipeline envStreamCreateFail sampleRequest).connection_released = false
    ∧ (runPipeline envStreamCreateFail sampleRequest).events = [REvent.finish 1034] :=
  ⟨rfl, rfl, rfl⟩

/-- C5: whenever the stream is created and activated, the run's notification
trace is exactly `stream_complete` with the exchange's completion code
followed by `finish` with the same code. -/
theorem C5_stream_complete_then_finish_same_code
    (env : PipelineEnv) (request : S3Request)
    (h : streamActivated env request = true) :
    (runPipeline env request).events =
      [REvent.stream_complete env.completion_error_code,
       REvent.finish env.completion_error_code] := by
  rcases hE : s3_client_make_request env request with ⟨ret, req1, pending⟩
  cases pending with
  | false => simp [streamActivated, hE] at h
  | true =>
    rcases signing_complete_spec env env.signing_error_code req1 with ⟨ec, hs⟩ | hs
    · simp [streamActivated, hE, hs] at h
    · rcases on_acquire_spec env env.acquire_error_code req1 with
        ⟨ec, req', ha⟩ | ⟨req', ha⟩
      · simp [streamActivated, hE, hs, ha] at h
      · simp [runPipeline, hE, hs, ha, s_s3_client_stream_complete]

/-- C5 witness: in the environment whose exchange completes with code 42, the
stream is activated and the trace is exactly stream_complete 42 then
finish 42. -/
theorem C5_witness :
    streamActivated envCompleteErr sampleRequest = true
    ∧ (runPipeline envCompleteErr sampleRequest).events =
        [REvent.stream_complete 42, REvent.finish 42] :=
  ⟨rfl, C5_stream_complete_then_finish_same_code envCompleteErr sampleRequest rfl⟩

/-- C6: when the signing stage fails — the signer's completion callback
reports a nonzero code, or applying the signing result fails — the request's
`stream_complete` notification is never delivered. -/
theorem C6_signing_failure_no_stream_complete
    (env : PipelineEnv) (request : S3Request)
    (h : env.signing_error_code ≠ AWS_OP_SUCCESS ∨ env.apply_signing_ret ≠ 0) :
    countStreamComplete (runPipeline env request).events = 0 := by
  rcases hE : s3_client_make_request env request with ⟨ret, req1, pending⟩
  cases pending with
  | false => simp [runPipeline, hE, countStreamComplete]
  | true =>
    obtain ⟨ec, hs⟩ := signing_complete_fail env env.signing_error_code req1 h
    simp [runPipeline, hE, hs, countStreamComplete]

/-- C6 witness: with the signer reporting error 7, the run delivers no
stream_complete notification. -/
theorem C6_witness :
    (envSigningFail.signing_error_code ≠ AWS_OP_SUCCESS
      ∨ envSigningFail.apply_signing_ret ≠ 0)
    ∧ countStreamComplete (runPipeline envSigningFail sampleRequest).events = 0 :=
  ⟨Or.inl (by decide), C6_signing_failure_no_stream_complete envSigningFail
    sampleRequest (Or.inl (by decide))⟩

/-- C7: whenever the configuration carries a bootstrap and a credentials
provider and every allocation and the connection-manager construction
succeed, `aws_s3_client_new` returns a client whose reference count is 1 and
whose shutdown-wait count is 1 (the one owned subsystem: the connection
manager). -/
theorem C7_valid_construction_counts
    (env : AllocEnv) (config : ClientConfig)
    (hb : config.client_bootstrap.isSome = true)
    (hp : config.credentials_provider.isSome = true)
    (h1 : env.calloc_ok = true) (h2 : env.region_new_ok = true)
    (h3 : env.endpoint_new_ok = true) (h4 : env.cm_new.isSome = true) :
    ∃ client, (aws_s3_client_new env config).1 = some client
      ∧ client.ref_count = 1 ∧ client.shutdown_wait_count = 1 := by
  rcases hB : config.client_bootstrap with _ | b
  · rw [hB] at hb; simp at hb
  rcases hP : config.credentials_provider with _ | p
  · rw [hP] at hp; simp at hp
  rcases hC : env.cm_new with _ | cm
  · rw [hC] at h4; simp at h4
  refine ⟨{ ref_count := 1, shutdown_wait_count := (0 + 1) % U64,
            client_bootstrap := b, credentials_provider := some p,
            shutdown_callback := config.shutdown_callback,
            shutdown_callback_user_data := config.shutdown_callback_user_data,
            region := some config.region, endpoint := some config.endpoint,
            connection_manager := some cm }, ?_, rfl, ?_⟩
  · simp [aws_s3_client_new, hB, hP, h1, h2, h3, hC]
  · show (0 + 1) % U64 = 1
    norm_num [U64]

/-- C7 witness: the sample environment and configuration satisfy every
hypothesis, so construction yields a client with both counts at 1. -/
theorem C7_witness :
    sampleConfig.client_bootstrap.isSome = true
    ∧ sampleConfig.credentials_provider.isSome = true
    ∧ sampleAllocEnv.calloc_ok = true
    ∧ sampleAllocEnv.region_new_ok = true
    ∧ sampleAllocEnv.endpoint_new_ok = true
    ∧ sampleAllocEnv.cm_new.isSome = true
    ∧ ∃ client, (aws_s3_client_new sampleAllocEnv sampleConfig).1 = some client
        ∧ client.ref_count = 1 ∧ client.shutdown_wait_count = 1 :=
  ⟨rfl, rfl, rfl, rfl, rfl, rfl,
   C7_valid_construction_counts sampleAllocEnv sampleConfig rfl rfl rfl rfl rfl rfl⟩

/-- C8: a configuration with a NULL bootstrap or a NULL credentials provider
makes `aws_s3_client_new` return NULL after raising the invalid-argument
error, with no connection manager constructed, no provider reference taken,
and no client struct even allocated. -/
theorem C8_missing_required_config_rejected
    (env : AllocEnv) (config : ClientConfig)
    (h : config.client_bootstrap = none ∨ config.credentials_provider = none) :
    (aws_s3_client_new env config).1 = none
    ∧ (aws_s3_client_new env config).2.raised_error
        = some AwsErrorId.AWS_ERROR_INVALID_ARGUMENT
    ∧ (aws_s3_client_new env config).2.cm_created = false
    ∧ (aws_s3_client_new env config).2.provider_acquired = false
    ∧ (aws_s3_client_new env config).2.client_allocated = false := by
  rcases h with h | h
  · simp [aws_s3_client_new, h]
  · cases hB : config.client_bootstrap
    · simp [aws_s3_client_new, hB]
    · simp [aws_s3_client_new, hB, h]

/-- C8 witness: the configuration with no credentials provider is rejected
with the invalid-argument error and acquires nothing. -/
theorem C8_witness :
    (noProviderConfig.client_bootstrap = none
      ∨ noProviderConfig.credentials_provider = none)
    ∧ (aws_s3_client_new sampleAllocEnv noProviderConfig).1 = none
    ∧ (aws_s3_client_new sampleAllocEnv noProviderConfig).2.raised_error
        = some AwsErrorId.AWS_ERROR_INVALID_ARGUMENT
    ∧ (aws_s3_client_new sampleAllocEnv noProviderConfig).2.cm_created = false
    ∧ (aws_s3_client_new sampleAllocEnv noProviderConfig).2.provider_acquired = false
    ∧ (aws_s3_client_new sampleAllocEnv noProviderConfig).2.client_allocated = false :=
  ⟨Or.inr rfl,
   C8_missing_required_config_rejected sampleAllocEnv noProviderConfig (Or.inr rfl)⟩

/-- C9: each of the three data hooks returns exactly what the corresponding
request handler returns on the forwarded, unmodified arguments, and is
insensitive to the stream argument — the only state threaded between events
is the request handle itself. -/
theorem C9_hooks_are_pure_pass_through
    (request : S3RequestHandlers) (stream stream' : HttpStream)
    (header_block : HeaderBlock) (headers : List HttpHeader) (num_headers : Nat)
    (data : ByteCursor) :
    s_s3_client_incoming_headers stream header_block headers num_headers request
        = request.incoming_headers header_block headers num_headers
    ∧ s_s3_client_incoming_header_block_done stream header_block request
        = request.incoming_header_block_done header_block
    ∧ s_s3_client_incoming_body stream data request = request.incoming_body data
    ∧ s_s3_client_incoming_headers stream header_block headers num_headers request
        = s_s3_client_incoming_headers stream' header_block headers num_headers request
    ∧ s_s3_client_incoming_header_block_done stream header_block request
        = s_s3_client_incoming_header_block_done stream' header_block request
    ∧ s_s3_client_incoming_body stream data request
        = s_s3_client_incoming_body stream' data request :=
  ⟨rfl, rfl, rfl, rfl, rfl, rfl⟩

/-- C10: on the decrement that brings the shutdown-wait count to zero, the
function frees the client's backing memory first and then invokes whatever
callback pointer was saved from the client — with the saved user data as its
only argument and with no null check, the `invoke_callback` action being
emitted even for a NULL pointer — so the callback never sees the client. -/
theorem C10_free_before_unconditional_callback
    (client : S3Client) (h : client.shutdown_wait_count = 1) :
    s_s3_client_dec_shutdown_wait_count client =
      (none, [ShutdownAction.free_client,
              ShutdownAction.invoke_callback client.shutdown_callback
                client.shutdown_callback_user_data]) := by
  rcases dec_shutdown_wait_cases client with ⟨hpos, _⟩ | ⟨_, heq⟩
  · rw [h] at hpos
    norm_num [U64] at hpos
  · exact heq

/-- C10 witness: a client whose user shutdown callback pointer is NULL is
still freed first and the NULL pointer is still invoked on the saved user
data. -/
theorem C10_witness :
    nullCallbackClient.shutdown_wait_count = 1
    ∧ s_s3_client_dec_shutdown_wait_count nullCallbackClient =
        (none, [ShutdownAction.free_client,
                ShutdownAction.invoke_callback none 4]) :=
  ⟨rfl, C10_free_before_unconditional_callback nullCallbackClient rfl⟩

end AwsCS3
